import Mathlib

/-!
Verification of the geemap front-end widget layer: the bidirectional
property-synchronization code (`set model` / `updated` in the Lit widgets),
the custom-message dispatch and band-stats reply handling of the layer
editor, and the tree-node expansion state machine of the inspector.
All definitions are shallow embeddings of the TypeScript in
`src/js/inspector.ts` (Inspector, TreeNode, LayerEditor) and the related
container/utils sources.
-/

section JsonModel

/-- A JavaScript-like structured value, used for custom messages sent via
`model.send` and received via the `msg:custom` event.  `jNull` stands for
both `null` and `undefined`. -/
inductive JValue where
  | jNull : JValue
  | jBool : Bool → JValue
  | jNum : Int → JValue
  | jStr : String → JValue
  | jArr : List JValue → JValue
  | jObj : List (String × JValue) → JValue

/-- Property access `v[k]`: the value stored under key `k` when `v` is an
object that has the key, otherwise `undefined` (modelled as `jNull`). -/
def jGet (v : JValue) (k : String) : JValue :=
  match v with
  | .jObj fields => (((fields.find? (fun p => p.1 == k))).map (fun p => p.2)).getD .jNull
  | _ => .jNull

/-- The JavaScript `k in v` test: key presence on an object. -/
def jHas (v : JValue) (k : String) : Bool :=
  match v with
  | .jObj fields => (fields.find? (fun p => p.1 == k)).isSome
  | _ => false

/-- JavaScript truthiness of a value. -/
def jTruthy (v : JValue) : Bool :=
  match v with
  | .jNull => false
  | .jBool b => b
  | .jNum n => !(n == 0)
  | .jStr s => !(s == "")
  | .jArr _ => true
  | .jObj _ => true

/-- Strict equality `v === s` against a known string `s`: true exactly when
`v` is that string. -/
def jEqStr (v : JValue) (s : String) : Bool :=
  match v with
  | .jStr t => t == s
  | _ => false

end JsonModel

section TreeModel

/-- The `Node` interface backing a `tree-node` component: optional label,
children, `expanded` flag and `topLevel` flag.  `none` in an optional field
means the key is absent from the source object. -/
inductive Node where
  | mk : Option String → List Node → Option Bool → Option Bool → Node

/-- The `label` field of a node. -/
def Node.label : Node → Option String
  | .mk l _ _ _ => l

/-- The `children` field of a node (absent key modelled as `[]`, matching
the `?? 0`-guarded uses in the component). -/
def Node.children : Node → List Node
  | .mk _ c _ _ => c

/-- The `expanded` field of a node; `none` when the source object has no
`expanded` key. -/
def Node.expanded : Node → Option Bool
  | .mk _ _ e _ => e

/-- The `topLevel` field of a node. -/
def Node.topLevel : Node → Option Bool
  | .mk _ _ _ t => t

/-- The reactive state of one `TreeNode` Lit component: its `node` backing
data property and its `expanded` reactive property (default `false`). -/
structure TreeNodeComp where
  node : Node
  expanded : Bool

/-- `TreeNode.toggleExpand`: `this.expanded = !this.expanded`. -/
def toggleExpand (c : TreeNodeComp) : TreeNodeComp :=
  { c with expanded := !c.expanded }

/-- `TreeNode.updated(changedProperties)`: when the `node` property changed,
and the new node data carries an `expanded` key, copy it into the
component's `expanded` property (`this.expanded = this.node.expanded ?? false`);
otherwise leave the component untouched. -/
def treeNodeUpdated (changedNode : Bool) (c : TreeNodeComp) : TreeNodeComp :=
  if changedNode then
    if (c.node.expanded).isSome then
      { c with expanded := (c.node.expanded).getD false }
    else c
  else c

/-- Replacing the backing data of a `tree-node` component: Lit assigns the
`node` property and then runs `updated` with `changedProperties`
containing `node`. -/
def replaceNodeData (c : TreeNodeComp) (n : Node) : TreeNodeComp :=
  treeNodeUpdated true { c with node := n }

end TreeModel

/-- Claim C8: toggling a tree node twice returns it exactly to its original
state; a single toggle leaves the backing node data (hence all children
and their expansion flags) unchanged; and replacing a node's backing data
with a fresh structure that explicitly sets `expanded: true` puts the
component in the expanded state. -/
theorem treeNode_toggle_involutive_and_explicit_expand :
    (∀ c : TreeNodeComp, toggleExpand (toggleExpand c) = c) ∧
    (∀ c : TreeNodeComp, (toggleExpand c).node = c.node) ∧
    (∀ (c : TreeNodeComp) (l : Option String) (ch : List Node) (tl : Option Bool),
      (replaceNodeData c (Node.mk l ch (some true) tl)).expanded = true) := by
  refine ⟨?_, ?_, ?_⟩
  · intro c
    cases c with
    | mk n e => simp [toggleExpand]
  · intro c
    rfl
  · intro c l ch tl
    rfl

/-- Claim C10: replacing a tree node's backing data with an object carrying
no `expanded` key keeps the component's current expansion state, while a
replacement whose data explicitly carries an `expanded` key overwrites it
with that value. -/
theorem treeNode_replace_preserves_expanded_without_key :
    (∀ (c : TreeNodeComp) (l : Option String) (ch : List Node) (tl : Option Bool),
      (replaceNodeData c (Node.mk l ch none tl)).expanded = c.expanded) ∧
    (∀ (c : TreeNodeComp) (l : Option String) (ch : List Node) (tl : Option Bool) (b : Bool),
      (replaceNodeData c (Node.mk l ch (some b) tl)).expanded = b) := by
  constructor
  · intro c l ch tl
    rfl
  · intro c l ch tl b
    rfl

section SyncModel

/-- A value held by an Inspector view property or model field: a boolean
(`hide_close_button`, `expand_points`, `expand_pixels`, `expand_objects`)
or a tree node (`point_info`, `pixel_info`, `object_info`). -/
inductive Value where
  | vBool : Bool → Value
  | vNode : Node → Value

/-- Point update of a string-indexed store: `store[k] = v`. -/
def setProp (store : String → Value) (k : String) (v : Value) : String → Value :=
  fun q => if q == k then v else store q

/-- Association-list lookup with string keys, as used for the
`viewNameToModelName` map. -/
def lookupStr (l : List (String × String)) (k : String) : Option String :=
  match l with
  | [] => none
  | p :: rest => if p.1 == k then some p.2 else lookupStr rest k

/-- The Inspector's `modelNameToViewName` table, exactly as declared in the
source: each Python model field name paired with its widget property name
(an absent widget name would be `none`, as in the LayerEditor's
`["children", null]` entry). -/
def inspectorModelToView : List (String × Option String) :=
  [("hide_close_button", some "hideCloseButton"),
   ("expand_points", some "expandPoints"),
   ("expand_pixels", some "expandPixels"),
   ("expand_objects", some "expandObjects"),
   ("point_info", some "pointInfo"),
   ("pixel_info", some "pixelInfo"),
   ("object_info", some "objectInfo")]

/-- Modelled from the spec: `reverseMap` is imported from `./utils`, whose
source is not in the repository snapshot.  The spec describes the inverse
key map as "a mapping from localProperty to remoteField", so the reversal
swaps each pair, dropping entries whose local property is null. -/
def reverseMap (m : List (String × Option String)) : List (String × String) :=
  m.filterMap (fun p => p.2.map (fun w => (w, p.1)))

/-- The Inspector's cached `viewNameToModelName = reverseMap(modelNameToViewName)`. -/
def inspectorViewToModel : List (String × String) :=
  reverseMap inspectorModelToView

/-- State built by the Inspector's `set model` setter: the widget's reactive
properties, and the list of live `change:` subscriptions.  Each listener is
recorded as the `(modelKey, widgetKey)` pair its callback closes over. -/
structure AttachState where
  view : String → Value
  listeners : List (String × String)

/-- The Inspector's `set model` body: for every keymap entry with a non-null
widget key, assign `view[widgetKey] = model.get(modelKey)` and register a
`change:modelKey` listener.  Registration appends — nothing is ever
unregistered. -/
def attachView (km : List (String × Option String)) (get : String → Value)
    (s : AttachState) : AttachState :=
  km.foldl
    (fun acc e =>
      match e.2 with
      | none => acc
      | some w =>
        { view := setProp acc.view w (get e.1),
          listeners := acc.listeners ++ [(e.1, w)] })
    s

/-- The subscription callbacks fired when the remote model emits
`change:f`: every registered listener whose model key is `f`. -/
def triggeredCallbacks (listeners : List (String × String)) (f : String) :
    List (String × String) :=
  listeners.filter (fun p => p.1 == f)

/-- Running every callback triggered by a `change:f` event: each one
executes `view[widgetKey] = model.get(modelKey)` against the current model
data `get`. -/
def fireChangeView (get : String → Value) (s : AttachState) (f : String) : AttachState :=
  (triggeredCallbacks s.listeners f).foldl
    (fun acc p => { acc with view := setProp acc.view p.2 (get p.1) }) s

/-- The view properties written by a `change:f` event, i.e. the changed
properties Lit passes to the subsequent `updated` call. -/
def changedProps (s : AttachState) (f : String) : List String :=
  (triggeredCallbacks s.listeners f).map (fun p => p.2)

/-- An observable call made by `updated` on the model handle: a
`model.set(field, value)` or the terminal `model.save_changes()`. -/
inductive Ev where
  | setCall : String → Value → Ev
  | saveChanges : Ev

/-- The for-loop of the Inspector's `updated(changedProperties)`: for each
changed view property present in `viewNameToModelName`, issue
`model.set(modelProp, this[viewProp])`. -/
def inspectorSetCalls (view : String → Value) : List String → List Ev
  | [] => []
  | w :: rest =>
    match lookupStr inspectorViewToModel w with
    | none => inspectorSetCalls view rest
    | some m => Ev.setCall m (view w) :: inspectorSetCalls view rest

/-- The Inspector's `updated(changedProperties)` body: the set loop over the
changed properties, then a single `model.save_changes()`. -/
def inspectorUpdated (view : String → Value) (changed : List String) : List Ev :=
  inspectorSetCalls view changed ++ [Ev.saveChanges]

/-- Number of `model.set` calls issued for model field `f` in an event log. -/
def countSetCalls (evs : List Ev) (f : String) : Nat :=
  (evs.filter (fun e => match e with | .setCall g _ => g == f | .saveChanges => false)).length

/-- Number of `model.save_changes()` calls in an event log. -/
def countSaveCalls (evs : List Ev) : Nat :=
  (evs.filter (fun e => match e with | .setCall _ _ => false | .saveChanges => true)).length

/-- The `updated` loop when `model.set` may throw (the remote model is
mid-teardown): the loop body has no try/catch, so the first throwing
`model.set` aborts `updated` — later fields are not visited and
`save_changes` is not reached.  `failsOn` says which model fields throw. -/
def setCallsE (failsOn : String → Bool) (view : String → Value) :
    List String → Except String (List Ev)
  | [] => .ok []
  | w :: rest =>
    match lookupStr inspectorViewToModel w with
    | none => setCallsE failsOn view rest
    | some m =>
      if failsOn m then .error m
      else (setCallsE failsOn view rest).map (fun evs => Ev.setCall m (view w) :: evs)

/-- `updated` with a fallible `model.set`: the set loop, then — only if no
exception escaped — the single `save_changes`. -/
def inspectorUpdatedE (failsOn : String → Bool) (view : String → Value)
    (changed : List String) : Except String (List Ev) :=
  (setCallsE failsOn view changed).map (fun evs => evs ++ [Ev.saveChanges])

end SyncModel

/-- Claim C3: immediately after the Inspector's `set model` runs — before
any user interaction or remote change — every mapped view property holds
exactly the value read from the corresponding remote model field. -/
theorem inspector_initial_sync (get view : String → Value) :
    ((attachView inspectorModelToView get { view := view, listeners := [] }).view
        "hideCloseButton" = get "hide_close_button") ∧
    ((attachView inspectorModelToView get { view := view, listeners := [] }).view
        "expandPoints" = get "expand_points") ∧
    ((attachView inspectorModelToView get { view := view, listeners := [] }).view
        "expandPixels" = get "expand_pixels") ∧
    ((attachView inspectorModelToView get { view := view, listeners := [] }).view
        "expandObjects" = get "expand_objects") ∧
    ((attachView inspectorModelToView get { view := view, listeners := [] }).view
        "pointInfo" = get "point_info") ∧
    ((attachView inspectorModelToView get { view := view, listeners := [] }).view
        "pixelInfo" = get "pixel_info") ∧
    ((attachView inspectorModelToView get { view := view, listeners := [] }).view
        "objectInfo" = get "object_info") := by
  refine ⟨?_, ?_, ?_, ?_, ?_, ?_, ?_⟩ <;> rfl

/-- Claim C2 counterexample: attach the Inspector to a model whose fields
are all `false`, let the remote flip `hide_close_button` to `true`, fire
the subscription callback (a remote-origin write of `hideCloseButton`),
and run the ensuing `updated` cycle on the changed property: a
`model.set("hide_close_button", …)` call IS issued, contradicting the
claim that a remote-origin write is never echoed back for that field. -/
theorem inspector_remote_echo_cex :
    countSetCalls
      (inspectorUpdated
        (fireChangeView
          (setProp (fun _ => Value.vBool false) "hide_close_button" (Value.vBool true))
          (attachView inspectorModelToView (fun _ => Value.vBool false)
            { view := fun _ => Value.vBool false, listeners := [] })
          "hide_close_button").view
        (changedProps
          (attachView inspectorModelToView (fun _ => Value.vBool false)
            { view := fun _ => Value.vBool false, listeners := [] })
          "hide_close_button"))
      "hide_close_button" ≠ 0 := by decide

/-- Claim C2 amended: a remote-origin write is echoed back.  For a single
live subscription `(m, w)` of the Inspector's key map, a remote change
event on `m` writes the received value into the view, and the ensuing
`updated` cycle issues exactly one `model.set(m, v)` whose value `v` is
the value just read from the remote model, followed by the single
`save_changes`; the echo re-sends the remote's own current value. -/
theorem inspector_remote_echo_amended (get view : String → Value) (w m : String)
    (hm : lookupStr inspectorViewToModel w = some m) :
    inspectorUpdated
        (fireChangeView get { view := view, listeners := [(m, w)] } m).view
        (changedProps { view := view, listeners := [(m, w)] } m)
      = [Ev.setCall m (get m), Ev.saveChanges] := by
  simp [inspectorUpdated, inspectorSetCalls, fireChangeView, triggeredCallbacks,
    changedProps, setProp, hm]

/-- Witness for the amended Claim C2 at the Inspector's
`hide_close_button` field. -/
theorem inspector_remote_echo_amended_witness :
    inspectorUpdated
        (fireChangeView (fun _ => Value.vBool true)
          { view := fun _ => Value.vBool false,
            listeners := [("hide_close_button", "hideCloseButton")] }
          "hide_close_button").view
        (changedProps
          { view := fun _ => Value.vBool false,
            listeners := [("hide_close_button", "hideCloseButton")] }
          "hide_close_button")
      = [Ev.setCall "hide_close_button" (Value.vBool true), Ev.saveChanges] :=
  inspector_remote_echo_amended (fun _ => Value.vBool true) (fun _ => Value.vBool false)
    "hideCloseButton" "hide_close_button" rfl

/-- Claim C5 counterexample: running the Inspector's `set model` twice on
the same widget without any teardown leaves two live `change:` listeners
for `hide_close_button`, so a single simulated remote change triggers two
subscription callbacks — not at most one. -/
theorem inspector_double_attach_cex :
    ¬ ((triggeredCallbacks
        (attachView inspectorModelToView (fun _ => Value.vBool false)
          (attachView inspectorModelToView (fun _ => Value.vBool false)
            { view := fun _ => Value.vBool false, listeners := [] })).listeners
        "hide_close_button").length ≤ 1) := by decide

set_option maxHeartbeats 2000000 in
/-- Claim C5 amended: a second `set model` without an intervening detach
duplicates every subscription: one attach leaves exactly one listener per
mapped remote field, a second attach leaves exactly two, so a single
remote change then triggers two callbacks for its field.  The
implementation neither rejects the second attach nor tears down the
first binding. -/
theorem inspector_double_attach_amended (get get2 view : String → Value) :
    ((triggeredCallbacks
        (attachView inspectorModelToView get
          { view := view, listeners := [] }).listeners
        "hide_close_button").length = 1) ∧
    ((triggeredCallbacks
        (attachView inspectorModelToView get2
          (attachView inspectorModelToView get
            { view := view, listeners := [] })).listeners
        "hide_close_button").length = 2) ∧
    ((triggeredCallbacks
        (attachView inspectorModelToView get2
          (attachView inspectorModelToView get
            { view := view, listeners := [] })).listeners
        "point_info").length = 2) := by
  refine ⟨rfl, rfl, rfl⟩

/-- Claim C7 counterexample: in a batch where `hideCloseButton` and
`expandPoints` both changed, if `model.set("hide_close_button", …)`
throws, `updated` has no try/catch: the exception escapes the batch,
`expand_points` is never set and `save_changes` is never reached —
contradicting the claim that the failing field is skipped and the rest of
the batch still processed. -/
theorem inspector_error_aborts_batch_cex :
    inspectorUpdatedE (fun m => m == "hide_close_button") (fun _ => Value.vBool false)
      ["hideCloseButton", "expandPoints"] = Except.error "hide_close_button" := rfl

/-- Claim C7 amended: an error raised by `model.set` during the `updated`
batch propagates out of the cycle: whenever the first changed property of
the batch is mapped to a model field whose set throws, the whole cycle
evaluates to that error — the remaining fields of the batch are not
processed and `save_changes` is not called. -/
theorem inspector_error_aborts_batch (failsOn : String → Bool) (view : String → Value)
    (w m : String) (rest : List String)
    (hm : lookupStr inspectorViewToModel w = some m) (hf : failsOn m = true) :
    inspectorUpdatedE failsOn view (w :: rest) = Except.error m := by
  simp [inspectorUpdatedE, setCallsE, hm, hf, Except.map]

/-- Witness for the amended Claim C7 at the `expand_points` field. -/
theorem inspector_error_aborts_batch_witness :
    inspectorUpdatedE (fun m => m == "expand_points") (fun _ => Value.vBool true)
      ["expandPoints", "expandPixels"] = Except.error "expand_points" :=
  inspector_error_aborts_batch (fun m => m == "expand_points") (fun _ => Value.vBool true)
    "expandPoints" "expand_points" ["expandPixels"] rfl rfl

/-- Association-list lookup success implies membership of the pair. -/
theorem lookupStr_mem (l : List (String × String)) (k m : String)
    (h : lookupStr l k = some m) : (k, m) ∈ l := by
  induction l with
  | nil => exact absurd h (by simp [lookupStr])
  | cons p rest ih =>
    rw [lookupStr] at h
    split at h
    · next hbeq =>
      cases p with
      | mk a b =>
        injection h with h2
        have ha : a = k := by simpa using hbeq
        subst ha
        subst h2
        exact List.mem_cons_self _ _
    · exact List.mem_cons_of_mem _ (ih h)

/-- The Inspector's inverse key map is injective: two view properties that
look up to the same model field are the same property. -/
theorem inspectorViewToModel_inj (w1 w2 m : String)
    (h1 : lookupStr inspectorViewToModel w1 = some m)
    (h2 : lookupStr inspectorViewToModel w2 = some m) : w1 = w2 := by
  have m1 := lookupStr_mem _ _ _ h1
  have m2 := lookupStr_mem _ _ _ h2
  simp [inspectorViewToModel, reverseMap, inspectorModelToView, Prod.mk.injEq] at m1 m2
  rcases m1 with ⟨rfl, rfl⟩ | ⟨rfl, rfl⟩ | ⟨rfl, rfl⟩ | ⟨rfl, rfl⟩ |
    ⟨rfl, rfl⟩ | ⟨rfl, rfl⟩ | ⟨rfl, rfl⟩ <;>
    rcases m2 with ⟨rfl, h⟩ | ⟨rfl, h⟩ | ⟨rfl, h⟩ | ⟨rfl, h⟩ |
      ⟨rfl, h⟩ | ⟨rfl, h⟩ | ⟨rfl, h⟩ <;> simp_all

/-- `countSetCalls` distributes over list append. -/
theorem countSetCalls_append (evs1 evs2 : List Ev) (m : String) :
    countSetCalls (evs1 ++ evs2) m = countSetCalls evs1 m + countSetCalls evs2 m := by
  simp [countSetCalls, List.filter_append]

/-- The set loop of `updated` produces no set call for a model field whose
view property is absent from the changed batch. -/
theorem countSetCalls_setCalls_eq_zero (view : String → Value) (rest : List String)
    (m w : String) (hm : lookupStr inspectorViewToModel w = some m)
    (hw : w ∉ rest) :
    countSetCalls (inspectorSetCalls view rest) m = 0 := by
  induction rest with
  | nil => rfl
  | cons a rs ih =>
    have hw2 : w ∉ rs := fun h => hw (List.mem_cons_of_mem _ h)
    have hwa : w ≠ a := fun h => hw (h ▸ List.mem_cons_self _ _)
    cases hA : lookupStr inspectorViewToModel a with
    | none =>
      rw [inspectorSetCalls, hA]
      exact ih hw2
    | some m2 =>
      have hne : m2 ≠ m := by
        intro h
        subst h
        exact hwa (inspectorViewToModel_inj w a m2 hm hA)
      have hb : (m2 == m) = false := beq_eq_false_iff_ne.mpr hne
      rw [inspectorSetCalls, hA]
      simpa [countSetCalls, List.filter, hb] using ih hw2

/-- In a duplicate-free changed batch containing mapped view property `w`,
the set loop of `updated` issues exactly one set call for `w`'s model
field. -/
theorem countSetCalls_setCalls_eq_one (view : String → Value) (changed : List String)
    (m w : String) (hnd : changed.Nodup) (hw : w ∈ changed)
    (hm : lookupStr inspectorViewToModel w = some m) :
    countSetCalls (inspectorSetCalls view changed) m = 1 := by
  induction changed with
  | nil => cases hw
  | cons a rest ih =>
    rcases List.nodup_cons.mp hnd with ⟨ha, hrest⟩
    rcases List.mem_cons.mp hw with hwa | hwr
    · subst hwa
      have hz : countSetCalls (inspectorSetCalls view rest) m = 0 :=
        countSetCalls_setCalls_eq_zero view rest m w hm ha
      rw [inspectorSetCalls, hm]
      unfold countSetCalls at hz ⊢
      simp [List.filter_cons, hz]
    · have hwa : w ≠ a := fun h => ha (h ▸ hwr)
      cases hA : lookupStr inspectorViewToModel a with
      | none =>
        rw [inspectorSetCalls, hA]
        exact ih hrest hwr
      | some m2 =>
        have hne : m2 ≠ m := by
          intro h
          subst h
          exact hwa (inspectorViewToModel_inj w a m2 hm hA)
        have hb : (m2 == m) = false := beq_eq_false_iff_ne.mpr hne
        rw [inspectorSetCalls, hA]
        simpa [countSetCalls, List.filter, hb] using ih hrest hwr

/-- The set loop of `updated` never calls `save_changes`. -/
theorem countSaveCalls_setCalls (view : String → Value) (changed : List String) :
    countSaveCalls (inspectorSetCalls view changed) = 0 := by
  induction changed with
  | nil => rfl
  | cons a rest ih =>
    cases hA : lookupStr inspectorViewToModel a with
    | none =>
      rw [inspectorSetCalls, hA]
      exact ih
    | some m2 =>
      rw [inspectorSetCalls, hA]
      simpa [countSaveCalls, List.filter] using ih

/-- `countSaveCalls` distributes over list append. -/
theorem countSaveCalls_append (evs1 evs2 : List Ev) :
    countSaveCalls (evs1 ++ evs2) = countSaveCalls evs1 + countSaveCalls evs2 := by
  simp [countSaveCalls, List.filter_append]

/-- Claim C4: in one `updated` cycle over a batch of changed view
properties (each listed once), every changed property present in the
inverse key map gives rise to exactly one `model.set` for its model field,
and `save_changes` is called exactly once for the whole batch — as the
final event, after all sets — never once per field. -/
theorem inspector_updated_one_set_per_field_one_save
    (view : String → Value) (changed : List String) (hnd : changed.Nodup) :
    countSaveCalls (inspectorUpdated view changed) = 1 ∧
    (inspectorUpdated view changed).getLast? = some Ev.saveChanges ∧
    (∀ w m, w ∈ changed → lookupStr inspectorViewToModel w = some m →
      countSetCalls (inspectorUpdated view changed) m = 1) := by
  refine ⟨?_, ?_, ?_⟩
  · rw [inspectorUpdated, countSaveCalls_append, countSaveCalls_setCalls]
    rfl
  · rw [inspectorUpdated]
    exact List.getLast?_concat _
  · intro w m hw hm
    rw [inspectorUpdated, countSetCalls_append,
      countSetCalls_setCalls_eq_one view changed m w hnd hw hm]
    rfl

/-- Witness for Claim C4: a batch where two mapped properties changed
together gets one set per field and a single trailing `save_changes`. -/
theorem inspector_updated_one_set_per_field_one_save_witness :
    countSaveCalls
        (inspectorUpdated (fun _ => Value.vBool false)
          ["hideCloseButton", "expandPixels"]) = 1 ∧
    countSetCalls
        (inspectorUpdated (fun _ => Value.vBool false)
          ["hideCloseButton", "expandPixels"]) "hide_close_button" = 1 ∧
    countSetCalls
        (inspectorUpdated (fun _ => Value.vBool false)
          ["hideCloseButton", "expandPixels"]) "expand_pixels" = 1 := by
  have h := inspector_updated_one_set_per_field_one_save (fun _ => Value.vBool false)
    ["hideCloseButton", "expandPixels"] (by decide)
  exact ⟨h.1, h.2.2 "hideCloseButton" "hide_close_button" (by decide) (by decide),
    h.2.2 "expandPixels" "expand_pixels" (by decide) (by decide)⟩

section LayerEditorMessaging

/-- The reactive state of the `RasterLayerEditor` child the LayerEditor
queries: the current stretch mode, the min/max range values (JS values,
`jNull` for `undefined`), the currently selected bands, and the `palette`
property of its nested palette editor. -/
structure RasterState where
  stretch : String
  minValue : JValue
  maxValue : JValue
  selectedBands : List String
  palette : JValue

/-- The LayerEditor state the message handlers touch: its `rasterEditor`
query result, which is `none` when the raster editor child is absent. -/
structure EditorState where
  rasterEditor : Option RasterState

/-- The two assignments of `handleBandstatsResponse`:
`minValue = response.bandstats.min; maxValue = response.bandstats.max`. -/
def applyBandstats (e : RasterState) (bs : JValue) : RasterState :=
  { e with minValue := jGet bs "min", maxValue := jGet bs "max" }

/-- `LayerEditor.handleBandstatsResponse`: if the raster editor exists and
the reply's embedded `bandstats.stretch` strictly equals the editor's
current `stretch`, copy the reply's `min`/`max` into
`minValue`/`maxValue`; otherwise leave everything unchanged. -/
def handleBandstatsResponse (st : EditorState) (response : JValue) : EditorState :=
  match st.rasterEditor with
  | none => st
  | some e =>
    if jEqStr (jGet (jGet response "bandstats") "stretch") e.stretch then
      { st with rasterEditor := some (applyBandstats e (jGet response "bandstats")) }
    else st

/-- `LayerEditor.handlePaletteResponse`: if `response.palette.palette` is
truthy, assign it to the palette editor's `palette` property; the
optional-chained query yields `undefined` when the raster editor is
absent, so the assignment then throws a TypeError. -/
def handlePaletteResponse (st : EditorState) (response : JValue) :
    Except String EditorState :=
  if jTruthy (jGet (jGet response "palette") "palette") then
    match st.rasterEditor with
    | none => .error "TypeError"
    | some e =>
      .ok { st with rasterEditor := some { e with palette := jGet (jGet response "palette") "palette" } }
  else .ok st

/-- The LayerEditor's `msg:custom` callback: a message with a `bandstats`
key goes to the band-stats handler; otherwise one with a `palette` key
goes to the palette handler; otherwise the message is ignored. -/
def onCustomMsg (st : EditorState) (msg : JValue) : Except String EditorState :=
  if jHas msg "bandstats" then .ok (handleBandstatsResponse st msg)
  else if jHas msg "palette" then handlePaletteResponse st msg
  else .ok st

/-- `LayerEditor.onCloseButtonClicked`'s outgoing message. -/
def closeClickMsg : JValue :=
  .jObj [("type", .jStr "click"), ("id", .jStr "close")]

/-- `LayerEditor.calculateBandStats`'s outgoing message: the band-stats
command with the raster editor's current selected bands and stretch mode
captured in `detail` (optional chaining yields `undefined` fields when
the editor is absent). -/
def calculateBandStatsMsg (st : EditorState) : JValue :=
  .jObj [("type", .jStr "calculate"), ("id", .jStr "band-stats"),
    ("detail", .jObj [
      ("bands", match st.rasterEditor with
        | some e => .jArr (e.selectedBands.map JValue.jStr)
        | none => .jNull),
      ("stretch", match st.rasterEditor with
        | some e => .jStr e.stretch
        | none => .jNull)])]

/-- `LayerEditor.onPaletteChanged`'s outgoing message: the palette command
carrying the event's colormap, classes and palette plus the raster
editor's current min/max. -/
def onPaletteChangedMsg (st : EditorState) (colormap classes palette : JValue) : JValue :=
  .jObj [("type", .jStr "calculate"), ("id", .jStr "palette"),
    ("detail", .jObj [
      ("colormap", colormap), ("classes", classes), ("palette", palette),
      ("bandMin", match st.rasterEditor with | some e => e.minValue | none => .jNull),
      ("bandMax", match st.rasterEditor with | some e => e.maxValue | none => .jNull)])]

end LayerEditorMessaging

/-- Claim C1: a band-stats reply is applied exactly when its embedded
stretch context equals the raster editor's current stretch at handling
time: on a match, `minValue`/`maxValue` become the reply's `min`/`max`
(and nothing else changes); on a mismatch, the handler leaves the state
completely unchanged. -/
theorem bandstats_reply_applied_iff_stretch_matches (st : EditorState)
    (e : RasterState) (response : JValue) (he : st.rasterEditor = some e) :
    (jEqStr (jGet (jGet response "bandstats") "stretch") e.stretch = true →
      Option.map RasterState.minValue (handleBandstatsResponse st response).rasterEditor
          = some (jGet (jGet response "bandstats") "min") ∧
      Option.map RasterState.maxValue (handleBandstatsResponse st response).rasterEditor
          = some (jGet (jGet response "bandstats") "max") ∧
      Option.map RasterState.stretch (handleBandstatsResponse st response).rasterEditor
          = some e.stretch ∧
      Option.map RasterState.selectedBands (handleBandstatsResponse st response).rasterEditor
          = some e.selectedBands ∧
      Option.map RasterState.palette (handleBandstatsResponse st response).rasterEditor
          = some e.palette) ∧
    (jEqStr (jGet (jGet response "bandstats") "stretch") e.stretch = false →
      handleBandstatsResponse st response = st) := by
  constructor
  · intro h
    simp [handleBandstatsResponse, applyBandstats, he, h]
  · intro h
    simp [handleBandstatsResponse, he, h]

/-- A raster editor state currently in stretch mode `sigma-1`. -/
def sampleRasterSigma1 : RasterState :=
  { stretch := "sigma-1", minValue := .jNull, maxValue := .jNull,
    selectedBands := ["B1"], palette := .jNull }

/-- A raster editor state currently in stretch mode `custom`. -/
def sampleRasterCustom : RasterState :=
  { stretch := "custom", minValue := .jNum 3, maxValue := .jNum 7,
    selectedBands := ["B1"], palette := .jNull }

/-- A band-stats reply whose embedded stretch context matches
`sampleRasterSigma1`. -/
def matchingBandstatsReply : JValue :=
  .jObj [("bandstats", .jObj [("stretch", .jStr "sigma-1"), ("min", .jNum 0),
    ("max", .jNum 255)])]

/-- A band-stats reply whose embedded stretch context is stale relative to
`sampleRasterCustom`. -/
def staleBandstatsReply : JValue :=
  .jObj [("bandstats", .jObj [("stretch", .jStr "sigma-2"), ("min", .jNum 10),
    ("max", .jNum 200)])]

/-- Witness for Claim C1: a reply carrying stretch context `sigma-1`
against a current stretch of `sigma-1` applies min 0 / max 255, while a
stale reply carrying `sigma-2` leaves the state unchanged. -/
theorem bandstats_reply_applied_iff_stretch_matches_witness :
    (Option.map RasterState.minValue
        (handleBandstatsResponse { rasterEditor := some sampleRasterSigma1 }
          matchingBandstatsReply).rasterEditor = some (JValue.jNum 0)) ∧
    (Option.map RasterState.maxValue
        (handleBandstatsResponse { rasterEditor := some sampleRasterSigma1 }
          matchingBandstatsReply).rasterEditor = some (JValue.jNum 255)) ∧
    (handleBandstatsResponse { rasterEditor := some sampleRasterCustom }
        staleBandstatsReply = { rasterEditor := some sampleRasterCustom }) := by
  have h1 := bandstats_reply_applied_iff_stretch_matches
    { rasterEditor := some sampleRasterSigma1 } sampleRasterSigma1 matchingBandstatsReply rfl
  have h2 := bandstats_reply_applied_iff_stretch_matches
    { rasterEditor := some sampleRasterCustom } sampleRasterCustom staleBandstatsReply rfl
  exact ⟨(h1.1 rfl).1, (h1.1 rfl).2.1, h2.2 rfl⟩

/-- Claim C6: inbound custom messages are dispatched by key presence in a
fixed priority order — a `bandstats` key selects the band-stats handler
(even if a `palette` key is also present), otherwise a `palette` key
selects the palette handler, and a message with neither key is ignored:
no error is raised and no view state changes. -/
theorem layerEditor_dispatch_by_key_priority (st : EditorState) (msg : JValue) :
    (jHas msg "bandstats" = true →
      onCustomMsg st msg = .ok (handleBandstatsResponse st msg)) ∧
    (jHas msg "bandstats" = false → jHas msg "palette" = true →
      onCustomMsg st msg = handlePaletteResponse st msg) ∧
    (jHas msg "bandstats" = false → jHas msg "palette" = false →
      onCustomMsg st msg = .ok st) := by
  refine ⟨?_, ?_, ?_⟩
  · intro h
    simp [onCustomMsg, h]
  · intro h1 h2
    simp [onCustomMsg, h1, h2]
  · intro h1 h2
    simp [onCustomMsg, h1, h2]

/-- Witness for Claim C6: a message carrying both keys is routed to the
band-stats handler, and a message carrying neither key is ignored without
error and without touching the state. -/
theorem layerEditor_dispatch_by_key_priority_witness :
    (onCustomMsg { rasterEditor := none }
        (.jObj [("bandstats", .jObj []), ("palette", .jObj [])]) =
      .ok (handleBandstatsResponse { rasterEditor := none }
        (.jObj [("bandstats", .jObj []), ("palette", .jObj [])]))) ∧
    (onCustomMsg { rasterEditor := none } (.jObj [("other", .jNum 1)]) =
      .ok { rasterEditor := none }) := by
  constructor
  · exact (layerEditor_dispatch_by_key_priority _ _).1 rfl
  · exact (layerEditor_dispatch_by_key_priority _ _).2.2 rfl rfl

/-- Claim C9: every outgoing command message carries a `type`
command-class string and an `id` tag string (with `detail` optional — the
close command has none), and the band-stats command's `detail` embeds the
raster editor's current selected bands and current stretch mode, the
correlation context the reply handler later checks. -/
theorem outgoing_command_shape_and_context (e : RasterState) (cm cl pl : JValue) :
    (jGet closeClickMsg "type" = .jStr "click" ∧
     jGet closeClickMsg "id" = .jStr "close" ∧
     jHas closeClickMsg "detail" = false) ∧
    (jGet (calculateBandStatsMsg { rasterEditor := some e }) "type" = .jStr "calculate" ∧
     jGet (calculateBandStatsMsg { rasterEditor := some e }) "id" = .jStr "band-stats" ∧
     jGet (jGet (calculateBandStatsMsg { rasterEditor := some e }) "detail") "bands"
       = .jArr (e.selectedBands.map JValue.jStr) ∧
     jGet (jGet (calculateBandStatsMsg { rasterEditor := some e }) "detail") "stretch"
       = .jStr e.stretch) ∧
    (jGet (onPaletteChangedMsg { rasterEditor := some e } cm cl pl) "type" = .jStr "calculate" ∧
     jGet (onPaletteChangedMsg { rasterEditor := some e } cm cl pl) "id" = .jStr "palette") := by
  exact ⟨⟨rfl, rfl, rfl⟩, ⟨rfl, rfl, rfl, rfl⟩, ⟨rfl, rfl⟩⟩
